import Mathlib

/-!
Verification of the mosaic metadata-store / capture-rate-statistics core.

The development shallowly embeds three Python source files:

* `src/qtgui/statisticsview/statisticsview.py` (namespace `Stats`):
  the capture-rate estimator `_caprate`, the display rounding
  `_roundcaprate`, the elapsed-time formatter, the `OnDataReady` slot and
  the idle-timer refresh loop (`OnAppIdle` and `_updatequery`).
* `src/mosaic/mdio/metaMDIO.py` (namespace `Store`): `initDB` with its
  keyword-argument attribute injection and required-key checks, and
  `_generateRecordKey`.
* `src/mosaic/abfTrajIO.py` (namespace `Traj`): `readdata` with its
  sampling-rate-consistency check.

Numbers are modelled by `ℚ` (exact arithmetic in place of IEEE floats).
External collaborators (scipy curve_fit, the sqlite worker, the wall
clock) are passed in as explicit parameters, so every definition stays
computable and evaluable on concrete inputs.
-/

/-- Python `int(q)`: truncation toward zero. -/
def pyTrunc (q : ℚ) : ℤ :=
  if 0 ≤ q then ⌊q⌋ else ⌈q⌉

/-- Python 2 `round(q)` to an integer: round half away from zero. -/
def pyRoundAway (q : ℚ) : ℤ :=
  if 0 ≤ q then ⌊q + 1/2⌋ else -⌊-q + 1/2⌋

/-- Python 2 `round(q, n)`: round half away from zero at `n` decimal digits
(`n` may be negative, rounding to tens, hundreds, ...). -/
def pyRound (q : ℚ) (n : ℤ) : ℚ :=
  (pyRoundAway (q * 10 ^ n) : ℚ) / 10 ^ n

/-- Python `a % b` on floats, for positive `b`. -/
def pymod (a b : ℚ) : ℚ :=
  a - b * ⌊a / b⌋

/-- Fuel-driven base-`b` integer logarithm (structurally recursive so the
kernel can evaluate it). `logAux b fuel n` equals `⌊log_b n⌋` whenever
`0 < n ≤ fuel` and `1 < b`. -/
def logAux (b : ℕ) : ℕ → ℕ → ℕ
  | 0, _ => 0
  | fuel + 1, n => if 1 < b ∧ b ≤ n then logAux b fuel (n / b) + 1 else 0

/-- `⌊log_b n⌋` for `1 < b` and `0 < n` (0 on degenerate input). -/
def natLog (b n : ℕ) : ℕ := logAux b n n

/-- Fuel-driven base-`b` ceiling logarithm (structurally recursive). -/
def clogAux (b : ℕ) : ℕ → ℕ → ℕ
  | 0, _ => 0
  | fuel + 1, n => if 1 < b ∧ 1 < n then clogAux b fuel ((n + b - 1) / b) + 1 else 0

/-- `⌈log_b n⌉` for `1 < b` and `0 < n` (0 on degenerate input). -/
def natClog (b n : ℕ) : ℕ := clogAux b n n

namespace Stats

/-- Models the Python expression `int(min(0, math.log10(x)))` computed by
`StatisticsWindow._roundcaprate` (the variable `sigx`). For `x ≥ 1` the
minimum is 0; for `0 < x < 1` the value `math.log10(x)` is negative and
`int` truncates toward zero, which equals `-⌊log10 (1/x)⌋`. Only evaluated
with `0 < x` (the enclosing try/except catches the log-domain error
otherwise). -/
def sigdigits (x : ℚ) : ℤ :=
  if 1 ≤ x then 0 else -(natLog 10 (⌊x⁻¹⌋.toNat) : ℤ)

/-- Models `StatisticsWindow._roundcaprate([x, y])`: significance-aware
rounding of the (rate, error) pair. The `x ≤ 0` guard models the
`math.log10` domain error being caught by the bare `except`, which returns
`[0, 0]`. In the `x ≥ 10` branch the Python code wraps the rounded floats
in `int(...)`, modelled by `pyTrunc`. -/
def roundcaprate (x y : ℚ) : ℚ × ℚ :=
  if x ≤ 0 then (0, 0)
  else if x < 10 then (pyRound x (sigdigits x), pyRound y (sigdigits x - 1))
  else ((pyTrunc (pyRound x (sigdigits x)) : ℚ), (pyTrunc (pyRound y (sigdigits x)) : ℚ))

/-- Exact `⌊log10 x⌋` for a positive rational, written to follow the
wording of the specification (which says `floor(log10(rate))`). For
`0 < x < 1` it uses the identity `⌊log10 x⌋ = -⌈log10 (1/x)⌉`. -/
def floorLog10 (x : ℚ) : ℤ :=
  if 1 ≤ x then (natLog 10 (⌊x⌋.toNat) : ℤ) else -(natClog 10 (⌈x⁻¹⌉.toNat) : ℤ)

/-- Follows the words of the specification for the display rounding:
`sigDigits = min(0, floor(log10(rate)))`, then the same two branches and
failure sentinel as the code. Kept separate from `roundcaprate` (which is
translated from the source) so the two can be compared. -/
def roundcaprateSpec (x y : ℚ) : ℚ × ℚ :=
  if x ≤ 0 then (0, 0)
  else if x < 10 then
    (pyRound x (min 0 (floorLog10 x)), pyRound y (min 0 (floorLog10 x) - 1))
  else
    ((pyTrunc (pyRound x (min 0 (floorLog10 x))) : ℚ),
      (pyTrunc (pyRound y (min 0 (floorLog10 x))) : ℚ))

/-- `np.diff(queryData)/1000.`: consecutive inter-arrival times converted
from milliseconds to seconds. -/
def arrtimes (qd : List ℚ) : List ℚ :=
  (qd.zip qd.tail).map (fun p => (p.2 - p.1) / 1000)

/-- Models `StatisticsWindow._caprate`.

`fit` stands for the external `np.histogram` plus `scipy.optimize.curve_fit`
composite applied to the inter-arrival times: it returns the fitted decay
parameter `popt[1]` (tau), or `none` when the fit raises (failure to
converge, singular covariance surfacing as an exception); the surrounding
try/except turns `none` into the `[0, 0]` sentinel. `sqrtN` stands for
the real number `math.sqrt(len(queryData))`, passed explicitly because it
is irrational in general. The result is `none` when the final expression
`[1/popt[1], 1/(popt[1]*math.sqrt(len(queryData)))]` itself raises
`ZeroDivisionError` (it sits outside the try/except), and `some pair`
when `_caprate` returns normally. -/
def caprate (qd : List ℚ) (fit : List ℚ → Option ℚ) (sqrtN : ℚ) : Option (ℚ × ℚ) :=
  if qd.length < 200 then some (0, 0)
  else
    match fit (arrtimes qd) with
    | none => some (0, 0)
    | some tau =>
      if tau = 0 ∨ tau * sqrtN = 0 then none
      else some (roundcaprate (1 / tau) (1 / (tau * sqrtN)))

/-- The elapsed-time display value built by `_formatelapsedtime`: either
seconds rounded to 2 digits, or a (minutes, seconds) pair. -/
inductive Elapsed where
  | secs (v : ℚ)
  | minsec (m s : ℤ)
  deriving DecidableEq

/-- Models `StatisticsWindow._formatelapsedtime`; `none` when `queryData`
is empty (then `queryData[-1]` raises IndexError). -/
def formatelapsedtime (qd : List ℚ) : Option Elapsed :=
  match qd.getLast? with
  | none => none
  | some last =>
    if last / 1000 ≤ 60 then some (.secs (pyRound (last / 1000) 2))
    else some (.minsec (pyRoundAway (last / 1000 / 60)) (pyRoundAway (pymod (last / 1000) 60)))

/-- `np.hstack(res1)`: concatenates the query rows into one flat vector;
raises ValueError (modelled as `none`) when handed an empty sequence of
rows. -/
def hstack (rows : List (List ℚ)) : Option (List ℚ) :=
  match rows with
  | [] => none
  | rs => some rs.flatten

/-- The mutable state of `StatisticsWindow` that the claims are about.
Label fields hold the semantic values written by `setText`. The
`outstanding` field is ghost instrumentation: the number of in-flight
`queryDB2` round trips (incremented by `_updatequery`, decremented when
the worker delivers `resultsReady2`). -/
structure StatsState where
  queryData : List ℚ
  totalEvents : ℕ
  neventsLabel : ℕ
  errorrateLabel : ℚ
  caprateLabel : ℚ × ℚ
  elapsedtimeLabel : Option Elapsed
  queryRunning : Bool
  outstanding : ℕ
  deriving DecidableEq

/-- Outcome of running a Qt slot: `normal` when the handler returns,
`raised` when an exception escapes it; both carry the state as mutated up
to that point. -/
inductive PyResult where
  | normal (s : StatsState)
  | raised (s : StatsState)
  deriving DecidableEq

/-- The state carried by a `PyResult`. -/
def PyResult.state : PyResult → StatsState
  | .normal s => s
  | .raised s => s

/-- Models `StatisticsWindow.OnDataReady(res1, res2, errorstr)`.

Control flow of the source, line by line: a non-empty `errorstr` skips the
whole body (no mutation, `queryRunning` stays as it was). Otherwise
`np.hstack(res1)` runs first — on an empty row list it raises ValueError,
re-raised by the bare `except: raise`. Then `queryData`/`totalEvents` are
assigned, `_caprate` runs (a `ZeroDivisionError` from its final division
is caught by the `except ZeroDivisionError` handler, leaving the labels
stale), `neventsLabel` is set, the error-rate division runs (caught the
same way when `totalEvents = 0`), then the error-rate, capture-rate and
elapsed-time labels are set and finally `queryRunning` is cleared. Each
branch below records exactly the fields mutated before control leaves the
handler on that path. -/
def onDataReady (fit : List ℚ → Option ℚ) (sqrtN : ℚ) (res1 : List (List ℚ))
    (res2 : List String) (errorstr : String) (s : StatsState) : PyResult :=
  if errorstr = "" then
    match hstack res1 with
    | none => .raised s
    | some qd =>
      match caprate qd fit sqrtN with
      | none => .normal { s with queryData := qd, totalEvents := res2.length }
      | some c =>
        if res2.length = 0 then
          .normal { s with
            queryData := qd
            totalEvents := res2.length
            neventsLabel := res2.length }
        else
          match formatelapsedtime qd with
          | none =>
            .raised { s with
              queryData := qd
              totalEvents := res2.length
              neventsLabel := res2.length
              errorrateLabel := pyRound (100 * (1 - (qd.length : ℚ) / (res2.length : ℚ))) 2
              caprateLabel := c }
          | some el =>
            .normal { s with
              queryData := qd
              totalEvents := res2.length
              neventsLabel := res2.length
              errorrateLabel := pyRound (100 * (1 - (qd.length : ℚ) / (res2.length : ℚ))) 2
              caprateLabel := c
              elapsedtimeLabel := some el
              queryRunning := false }
  else .normal s

/-- Models `StatisticsWindow._updatequery`: posts `queryDB2` to the worker
thread (ghost counter `outstanding` goes up) and sets `queryRunning`. -/
def updatequery (s : StatsState) : StatsState :=
  { s with queryRunning := true, outstanding := s.outstanding + 1 }

/-- Models `StatisticsWindow.OnAppIdle`: the 3000 ms idle-timer slot. -/
def onAppIdle (s : StatsState) : StatsState :=
  if s.queryRunning then s else updatequery s

/-- Events delivered by the Qt event loop to the window: a timer tick, or
the worker finishing one query round trip with its two result sets and
error indicator. -/
inductive Ev where
  | tick
  | ready (res1 : List (List ℚ)) (res2 : List String) (errorstr : String)

/-- One event-loop step. A `ready` event can only be delivered while a
round trip is outstanding; it completes that round trip (ghost counter
down) and runs `OnDataReady`. -/
def step (fit : List ℚ → Option ℚ) (sqrtN : ℚ) (s : StatsState) : Ev → StatsState
  | .tick => onAppIdle s
  | .ready r1 r2 e =>
    if s.outstanding = 0 then s
    else (onDataReady fit sqrtN r1 r2 e { s with outstanding := s.outstanding - 1 }).state

/-- The window state as built by `__init__` (labels at their defaults,
no query issued yet). -/
def initState : StatsState :=
  { queryData := []
    totalEvents := 0
    neventsLabel := 0
    errorrateLabel := 0
    caprateLabel := (0, 0)
    elapsedtimeLabel := none
    queryRunning := false
    outstanding := 0 }

/-- The state right after `openDBFile`, which fires the first
`_updatequery` before connecting the idle timer. -/
def openDBState : StatsState := updatequery initState

/-- The single-outstanding-query discipline: at most one round trip in
flight, and none when the running flag is clear. -/
def Inv (s : StatsState) : Prop :=
  s.outstanding ≤ 1 ∧ (s.queryRunning = false → s.outstanding = 0)

end Stats

namespace Store

/-- Values passed as keyword arguments to `initDB`. -/
inductive PyVal where
  | vstr (s : String)
  | vlist (l : List String)
  deriving DecidableEq

/-- The attribute dictionary of a `metaMDIO` instance: `pid` is set by
`__init__` from `os.getpid()`; `attrs` holds the attributes injected by
`setattr`. -/
structure StoreState where
  pid : ℕ
  attrs : List (String × PyVal)
  deriving DecidableEq

/-- `setattr` on the attribute dictionary: overwrite an existing binding
or append a new one. -/
def insertAttr : List (String × PyVal) → String × PyVal → List (String × PyVal)
  | [], kv => [kv]
  | (k1, v1) :: rest, kv =>
    if k1 = kv.1 then kv :: rest else (k1, v1) :: insertAttr rest kv

/-- `setattr(self, k, v)`. -/
def setAttr (s : StoreState) (kv : String × PyVal) : StoreState :=
  { s with attrs := insertAttr s.attrs kv }

/-- Key membership in an attribute dictionary. -/
def hasKey : List (String × PyVal) → String → Bool
  | [], _ => false
  | (k1, _) :: rest, k => if k = k1 then true else hasKey rest k

/-- `hasattr(self, k)`. -/
def hasAttr (s : StoreState) (k : String) : Bool := hasKey s.attrs k

/-- Outcome of `initDB`: normal return, or an `InsufficientArgumentsError`
naming the missing key. Both carry the object state as mutated so far. -/
inductive InitResult where
  | ok (s : StoreState)
  | err (missingKey : String) (s : StoreState)
  deriving DecidableEq

/-- The object state carried by an `InitResult`. -/
def InitResult.state : InitResult → StoreState
  | .ok s => s
  | .err _ s => s

/-- Whether `initDB` returned normally. -/
def InitResult.isOk : InitResult → Bool
  | .ok _ => true
  | .err _ _ => false

/-- Models `metaMDIO.initDB(**kwargs)`. Every keyword argument is first
set as an attribute via `setattr`; only then are the three required keys
checked with `hasattr`, raising `InsufficientArgumentsError` for the first
one absent. On success control reaches the abstract backend hook
`_initdb(**kwargs)` — modelled as a normal return. No other validation
(in particular no length comparison of `colNames` and `colNames_t`)
exists in the source. -/
def initDB (kwargs : List (String × PyVal)) (s : StoreState) : InitResult :=
  let s1 := kwargs.foldl setAttr s
  if hasAttr s1 "dbPath" = false then .err "dbPath" s1
  else if hasAttr s1 "colNames" = false then .err "colNames" s1
  else if hasAttr s1 "colNames_t" = false then .err "colNames_t" s1
  else .ok s1

/-- A freshly constructed `metaMDIO` instance: `__init__` sets only `pid`
(and a timing helper irrelevant here); no store attributes exist yet. -/
def freshStore (pid : ℕ) : StoreState := { pid := pid, attrs := [] }

/-- Models `metaMDIO._generateRecordKey`: `float(self.timingObj.time() +
self.pid)`. The wall-clock reading is the explicit `time` argument. -/
def generateRecordKey (s : StoreState) (time : ℚ) : ℚ := time + s.pid

end Store

namespace Traj

/-- The attributes of an `abfTrajIO` instance touched by `readdata`:
the sampling frequency `Fs` (absent before the first file is read), and
the per-file metadata assigned by the unpacking on the first line. -/
structure TrajState where
  Fs : Option ℚ
  fileFormat : String
  bandwidth : ℚ
  gain : ℚ
  deriving DecidableEq

/-- Outcome of `readdata`: a normal return carrying the raw data, or an
escaping exception. `raisedName` is a Python NameError on an unbound
module-level name; `raisedSamplingRateChanged` is the documented
`SamplingRateChangedError`. Each carries the object state as mutated. -/
inductive ReadResult where
  | ok (s : TrajState) (dat : List ℚ)
  | raisedName (s : TrajState) (missing : String)
  | raisedSamplingRateChanged (s : TrajState) (msg : String)
  deriving DecidableEq

/-- Models `abfTrajIO.readdata(fname)`. `load` is the tuple returned by
the external decoder `abf.abfload_gp(fname)`: (sampling frequency, file
format, bandwidth, gain, raw data). The unpacking assigns `fileFormat`,
`bandwidth` and `gain` before the frequency check. When a stored `Fs`
disagrees with the new frequency, the source executes
`raise metaTrajIO.SamplingRateChangedError(...)` — but the module only
runs `import mosaic.metaTrajIO`, which binds the name `mosaic`, not
`metaTrajIO`; evaluating the raise therefore raises NameError on the bare
name `metaTrajIO` before any exception object is constructed (the message
expression would also fail: it formats an unbound name `f`). -/
def readdata (load : ℚ × String × ℚ × ℚ × List ℚ) (s : TrajState) : ReadResult :=
  match load with
  | (freq, fmt, bw, g, dat) =>
    match s.Fs with
    | none =>
      .ok { s with fileFormat := fmt, bandwidth := bw, gain := g, Fs := some freq } dat
    | some fs =>
      if fs ≠ freq then
        .raisedName { s with fileFormat := fmt, bandwidth := bw, gain := g } "metaTrajIO"
      else
        .ok { s with fileFormat := fmt, bandwidth := bw, gain := g } dat

end Traj

section HelperLemmas

lemma logAux_spec (b : ℕ) (hb : 1 < b) :
    ∀ fuel n, 0 < n → n ≤ fuel →
      b ^ logAux b fuel n ≤ n ∧ n < b ^ (logAux b fuel n + 1) := by
  intro fuel
  induction fuel with
  | zero => intro n hn hle; omega
  | succ f ih =>
    intro n hn hle
    simp only [logAux]
    by_cases hcond : 1 < b ∧ b ≤ n
    · rw [if_pos hcond]
      obtain ⟨-, hbn⟩ := hcond
      have hb0 : 0 < b := by omega
      have hdiv_pos : 0 < n / b := Nat.div_pos hbn hb0
      have hdiv_lt : n / b < n := Nat.div_lt_self hn hb
      obtain ⟨ihl, ihr⟩ := ih (n / b) hdiv_pos (by omega)
      have hmod : n % b < b := Nat.mod_lt n hb0
      have hdm : b * (n / b) + n % b = n := Nat.div_add_mod n b
      constructor
      · calc b ^ (logAux b f (n / b) + 1) = b ^ logAux b f (n / b) * b := by
              rw [pow_succ]
          _ ≤ (n / b) * b := Nat.mul_le_mul_right b ihl
          _ ≤ n := by rw [Nat.mul_comm]; omega
      · have hstep : n < b * (n / b + 1) := by
          have : b * (n / b + 1) = b * (n / b) + b := by ring
          omega
        have hsucc : n / b + 1 ≤ b ^ (logAux b f (n / b) + 1) := ihr
        calc n < b * (n / b + 1) := hstep
          _ ≤ b * b ^ (logAux b f (n / b) + 1) := Nat.mul_le_mul_left b hsucc
          _ = b ^ (logAux b f (n / b) + 1 + 1) := by ring
    · rw [if_neg hcond]
      have : ¬ b ≤ n := by tauto
      simp only [pow_zero, zero_add, pow_one]
      omega

lemma natLog_spec (b n : ℕ) (hb : 1 < b) (hn : 0 < n) :
    b ^ natLog b n ≤ n ∧ n < b ^ (natLog b n + 1) :=
  logAux_spec b hb n n hn le_rfl

end HelperLemmas

namespace Store

lemma hasKey_insertAttr (l : List (String × PyVal)) (kv : String × PyVal) (k : String) :
    hasKey (insertAttr l kv) k = true ↔ k = kv.1 ∨ hasKey l k = true := by
  induction l with
  | nil =>
    by_cases h : k = kv.1 <;> simp [insertAttr, hasKey, h]
  | cons a t ih =>
    obtain ⟨k1, v1⟩ := a
    simp only [insertAttr]
    by_cases h1 : k1 = kv.1
    · rw [if_pos h1]
      by_cases h2 : k = kv.1
      · simp [hasKey, h1, h2]
      · have h3 : ¬ k = k1 := by rw [h1]; exact h2
        simp [hasKey, h2, h3]
    · rw [if_neg h1]
      by_cases h3 : k = k1
      · simp [hasKey, h3, h1]
      · simp [hasKey, h3, ih]

lemma hasAttr_foldl (l : List (String × PyVal)) (s : StoreState) (k : String) :
    hasAttr (l.foldl setAttr s) k = true ↔ k ∈ l.map Prod.fst ∨ hasAttr s k = true := by
  induction l generalizing s with
  | nil => simp
  | cons a t ih =>
    simp only [List.foldl_cons, List.map_cons, List.mem_cons]
    rw [ih]
    have hkv : hasAttr (setAttr s a) k = true ↔ k = a.1 ∨ hasAttr s k = true := by
      simpa [hasAttr, setAttr] using hasKey_insertAttr s.attrs a k
    rw [hkv]
    tauto

end Store

namespace Stats

lemma sigdigits_bounds (x : ℚ) (hx : 0 < x) (hlt : x < 1) :
    (10:ℚ) ^ (sigdigits x - 1) < x ∧ x ≤ (10:ℚ) ^ sigdigits x := by
  have hx1 : ¬ (1 ≤ x) := not_le.mpr hlt
  unfold sigdigits
  rw [if_neg hx1]
  have hw : 1 < x⁻¹ := one_lt_inv_iff₀.mpr ⟨hx, hlt⟩
  have hfl1 : (1:ℤ) ≤ ⌊x⁻¹⌋ := Int.le_floor.mpr (by exact_mod_cast hw.le)
  have hcast : ((⌊x⁻¹⌋.toNat : ℤ)) = ⌊x⁻¹⌋ := Int.toNat_of_nonneg (by omega)
  have hn0 : 0 < ⌊x⁻¹⌋.toNat := by omega
  obtain ⟨hA, hB⟩ := natLog_spec 10 ⌊x⁻¹⌋.toNat (by norm_num) hn0
  have hwn : ((⌊x⁻¹⌋.toNat : ℚ)) ≤ x⁻¹ := by
    have h1 : ((⌊x⁻¹⌋ : ℤ) : ℚ) ≤ x⁻¹ := Int.floor_le x⁻¹
    rw [← hcast] at h1
    exact_mod_cast h1
  have hwn2 : x⁻¹ < ((⌊x⁻¹⌋.toNat : ℚ)) + 1 := by
    have h1 : x⁻¹ < ((⌊x⁻¹⌋ : ℤ) : ℚ) + 1 := Int.lt_floor_add_one x⁻¹
    rw [← hcast] at h1
    exact_mod_cast h1
  have hql : ((10:ℚ)) ^ natLog 10 ⌊x⁻¹⌋.toNat ≤ x⁻¹ := by
    calc ((10:ℚ)) ^ natLog 10 ⌊x⁻¹⌋.toNat = ((10 ^ natLog 10 ⌊x⁻¹⌋.toNat : ℕ) : ℚ) := by
          push_cast; ring
      _ ≤ ((⌊x⁻¹⌋.toNat : ℚ)) := by exact_mod_cast hA
      _ ≤ x⁻¹ := hwn
  have hqu : x⁻¹ < ((10:ℚ)) ^ (natLog 10 ⌊x⁻¹⌋.toNat + 1) := by
    have h2 : ((⌊x⁻¹⌋.toNat : ℚ)) + 1 ≤ ((10:ℚ)) ^ (natLog 10 ⌊x⁻¹⌋.toNat + 1) := by
      have h3 : ((⌊x⁻¹⌋.toNat + 1 : ℕ) : ℚ) ≤ ((10 ^ (natLog 10 ⌊x⁻¹⌋.toNat + 1) : ℕ) : ℚ) := by
        exact_mod_cast Nat.succ_le_of_lt hB
      push_cast at h3
      linarith
    linarith
  have hwpos : (0:ℚ) < x⁻¹ := inv_pos.mpr hx
  constructor
  · have hzp : (10:ℚ) ^ (-(natLog 10 ⌊x⁻¹⌋.toNat : ℤ) - 1) =
        ((10:ℚ) ^ (natLog 10 ⌊x⁻¹⌋.toNat + 1))⁻¹ := by
      rw [show -(natLog 10 ⌊x⁻¹⌋.toNat : ℤ) - 1 =
        -((natLog 10 ⌊x⁻¹⌋.toNat + 1 : ℕ) : ℤ) by push_cast; ring]
      rw [zpow_neg, zpow_natCast]
    rw [hzp]
    calc ((10:ℚ) ^ (natLog 10 ⌊x⁻¹⌋.toNat + 1))⁻¹ < (x⁻¹)⁻¹ :=
          inv_strictAnti₀ hwpos hqu
      _ = x := inv_inv x
  · have hzp : (10:ℚ) ^ (-(natLog 10 ⌊x⁻¹⌋.toNat : ℤ)) =
        ((10:ℚ) ^ natLog 10 ⌊x⁻¹⌋.toNat)⁻¹ := by
      rw [zpow_neg, zpow_natCast]
    rw [hzp]
    calc x = (x⁻¹)⁻¹ := (inv_inv x).symm
      _ ≤ ((10:ℚ) ^ natLog 10 ⌊x⁻¹⌋.toNat)⁻¹ := by
          apply inv_anti₀ (by positivity) hql

lemma onDataReady_outstanding (fit : List ℚ → Option ℚ) (sqrtN : ℚ)
    (r1 : List (List ℚ)) (r2 : List String) (e : String) (s : StatsState) :
    ((onDataReady fit sqrtN r1 r2 e s).state).outstanding = s.outstanding := by
  unfold onDataReady
  by_cases he : e = ""
  · rw [if_pos he]
    cases hh : hstack r1 with
    | none => simp [PyResult.state]
    | some qd =>
      cases hc : caprate qd fit sqrtN with
      | none => simp [hc, PyResult.state]
      | some c =>
        by_cases ht : r2.length = 0
        · simp [hc, ht, PyResult.state]
        · cases hf : formatelapsedtime qd with
          | none => simp [hc, ht, hf, PyResult.state]
          | some el => simp [hc, ht, hf, PyResult.state]
  · rw [if_neg he]; rfl

lemma inv_openDB : Inv openDBState := by
  unfold Inv openDBState updatequery initState
  refine ⟨le_refl 1, ?_⟩
  intro h
  simp at h

lemma inv_step (fit : List ℚ → Option ℚ) (sqrtN : ℚ) (s : StatsState) (e : Ev)
    (h : Inv s) : Inv (step fit sqrtN s e) := by
  obtain ⟨h1, h2⟩ := h
  cases e with
  | tick =>
    unfold step onAppIdle
    cases hq : s.queryRunning with
    | false =>
      have h0 : s.outstanding = 0 := h2 hq
      simp only [hq, Bool.false_eq_true, if_false]
      unfold Inv updatequery
      refine ⟨by simp [h0], ?_⟩
      intro hc
      simp at hc
    | true =>
      simp only [hq, if_true]
      exact ⟨h1, h2⟩
  | ready r1 r2 e0 =>
    simp only [step]
    by_cases h0 : s.outstanding = 0
    · rw [if_pos h0]
      exact ⟨h1, h2⟩
    · rw [if_neg h0]
      unfold Inv
      rw [onDataReady_outstanding]
      constructor
      · simp
        omega
      · intro _
        simp
        omega

lemma inv_foldl (fit : List ℚ → Option ℚ) (sqrtN : ℚ) (evs : List Ev) (s : StatsState)
    (h : Inv s) : Inv (evs.foldl (step fit sqrtN) s) := by
  induction evs generalizing s with
  | nil => exact h
  | cons e t ih => exact ih _ (inv_step fit sqrtN s e h)

end Stats

namespace Stats

/-- Claim C1: the capture-rate estimator returns exactly the pair `[0, 0]`
whenever fewer than 200 timestamps are available — regardless of their
values — and likewise whenever the exponential curve fit fails (the
`curve_fit` call raises, covering failure to converge and a singular
covariance); in all such cases the sentinel, not a fit result, is what
`_caprate` hands back for publication. -/
theorem caprate_zero_pair_on_insufficient_or_failed_fit (qd : List ℚ)
    (fit : List ℚ → Option ℚ) (sqrtN : ℚ)
    (h : qd.length < 200 ∨ fit (arrtimes qd) = none) :
    caprate qd fit sqrtN = some (0, 0) := by
  unfold caprate
  rcases h with h | h
  · rw [if_pos h]
  · by_cases hl : qd.length < 200
    · rw [if_pos hl]
    · rw [if_neg hl, h]

/-- Witness for C1: a failing fit on 200 timestamps yields the sentinel. -/
theorem caprate_zero_pair_witness :
    caprate (List.replicate 200 0) (fun _ => none) 1 = some (0, 0) :=
  caprate_zero_pair_on_insufficient_or_failed_fit _ _ _ (Or.inr rfl)

/-- Claim C5: when the exponential fit succeeds with parameter `tau` (and
the sample is large enough for the fit to have been attempted), the pair
handed to display rounding is exactly rate `1/tau` and standard error
`1/(tau * sqrt N)`, where `N = len(queryData)` is the sample size used in
the fit (`sqrtN` is constrained to be the square root of `N`). -/
theorem caprate_success_formula (qd : List ℚ) (fit : List ℚ → Option ℚ)
    (sqrtN tau : ℚ) (hlen : 200 ≤ qd.length) (hfit : fit (arrtimes qd) = some tau)
    (htau : tau ≠ 0) (hsqrt : 0 < sqrtN) (hN : sqrtN ^ 2 = (qd.length : ℚ)) :
    caprate qd fit sqrtN = some (roundcaprate (1 / tau) (1 / (tau * sqrtN))) := by
  unfold caprate
  rw [if_neg (by omega), hfit]
  have hcond : ¬ (tau = 0 ∨ tau * sqrtN = 0) := by
    push_neg
    exact ⟨htau, mul_ne_zero htau (ne_of_gt hsqrt)⟩
  simp [hcond]
  exact ⟨htau, ne_of_gt hsqrt⟩

/-- Witness for C5 at 225 timestamps (sqrt 225 = 15) and tau = 1. -/
theorem caprate_success_formula_witness :
    200 ≤ (List.replicate 225 (0:ℚ)).length ∧
      (15:ℚ) ^ 2 = ((List.replicate 225 (0:ℚ)).length : ℚ) ∧
      caprate (List.replicate 225 0) (fun _ => some 1) 15 =
        some (roundcaprate (1 / 1) (1 / (1 * 15))) :=
  ⟨by rw [List.length_replicate]; norm_num,
    by rw [List.length_replicate]; norm_num,
    caprate_success_formula _ _ _ _ (by rw [List.length_replicate]; norm_num) rfl
      one_ne_zero (by norm_num) (by rw [List.length_replicate]; norm_num)⟩

end Stats

namespace Store

/-- Claim C8: `_generateRecordKey` returns the single numeric value
`currentTime + processIdentity`, and two successive calls in one process
with a non-decreasing clock yield non-decreasing keys (ties permitted when
the clock reading is identical, never decreasing). -/
theorem generateRecordKey_monotone (s : StoreState) (t1 t2 : ℚ) (h : t1 ≤ t2) :
    generateRecordKey s t1 = t1 + s.pid ∧
      generateRecordKey s t1 ≤ generateRecordKey s t2 := by
  refine ⟨rfl, ?_⟩
  unfold generateRecordKey
  exact add_le_add_right h _

/-- Witness for C8 with pid 42 and clock readings 0 and 5/2. -/
theorem generateRecordKey_monotone_witness :
    (0:ℚ) ≤ 5/2 ∧
      (generateRecordKey (freshStore 42) 0 = 0 + (freshStore 42).pid ∧
        generateRecordKey (freshStore 42) 0 ≤ generateRecordKey (freshStore 42) (5/2)) :=
  ⟨by norm_num, generateRecordKey_monotone (freshStore 42) 0 (5/2) (by norm_num)⟩

/-- Claim C10 (implicit): `initDB` sets every passed keyword argument as
an attribute before any validation runs, so the object state carried by
the outcome — also when the missing-argument error is raised — is exactly
the fold of `setattr` over the arguments, and any key passed (recognized
or not) ends up as an attribute rather than being rejected. -/
theorem initDB_sets_attrs_before_validation (kwargs : List (String × PyVal))
    (s : StoreState) (k : String) (v : PyVal) (h : (k, v) ∈ kwargs) :
    (initDB kwargs s).state = kwargs.foldl setAttr s ∧
      hasAttr ((initDB kwargs s).state) k = true := by
  have hstate : (initDB kwargs s).state = kwargs.foldl setAttr s := by
    simp only [initDB]
    split_ifs <;> rfl
  refine ⟨hstate, ?_⟩
  rw [hstate, hasAttr_foldl]
  exact Or.inl (List.mem_map.mpr ⟨(k, v), h, rfl⟩)

/-- Witness for C10: a single unrecognized key is injected as an
attribute even though the call then fails the required-key validation. -/
theorem initDB_sets_attrs_witness :
    ("bogus", PyVal.vstr "x") ∈ [("bogus", PyVal.vstr "x")] ∧
      ((initDB [("bogus", PyVal.vstr "x")] (freshStore 7)).state =
          [("bogus", PyVal.vstr "x")].foldl setAttr (freshStore 7) ∧
        hasAttr ((initDB [("bogus", PyVal.vstr "x")] (freshStore 7)).state) "bogus" = true) :=
  ⟨by decide,
    initDB_sets_attrs_before_validation [("bogus", PyVal.vstr "x")] (freshStore 7)
      "bogus" (PyVal.vstr "x") (by decide)⟩

end Store

namespace Traj

/-- Claim C9 (code bug): when the sampling frequency of a newly ingested
file differs from the stored `Fs`, `readdata` refuses to continue, but it
raises NameError on the unbound module-level name `metaTrajIO` instead of
the documented `SamplingRateChangedError`. The matching-frequency and
first-file paths return the raw data and record `Fs` as documented.
Evaluated at concrete inputs: a prior file at 500 kHz followed by a file
at 250 kHz (error path), a first file at 500 kHz, and a matching second
file. -/
theorem readdata_rate_change_raises_nameerror :
    readdata (250000, "ABF2", 100000, 1, [7, 8])
        { Fs := some 500000, fileFormat := "", bandwidth := 0, gain := 0 } =
      .raisedName { Fs := some 500000, fileFormat := "ABF2", bandwidth := 100000, gain := 1 }
        "metaTrajIO" ∧
      readdata (500000, "ABF1", 100000, 1, [7, 8])
          { Fs := none, fileFormat := "", bandwidth := 0, gain := 0 } =
        .ok { Fs := some 500000, fileFormat := "ABF1", bandwidth := 100000, gain := 1 } [7, 8] ∧
      readdata (500000, "ABF2", 100000, 1, [9])
          { Fs := some 500000, fileFormat := "", bandwidth := 0, gain := 0 } =
        .ok { Fs := some 500000, fileFormat := "ABF2", bandwidth := 100000, gain := 1 } [9] := by
  refine ⟨by decide, by decide, by decide⟩

end Traj

namespace Stats

/-- Counterexample for C4: at rate 1/2 (error 1/10) the code truncates
`log10(0.5) ≈ -0.301` toward zero, giving `sigDigits = 0` and the pair
`(1, 0)`, while the claimed formula `sigDigits = min(0, floor(log10 rate))`
gives `sigDigits = -1` and the pair `(0, 0)`. -/
theorem roundcaprate_deviates_from_floor_spec :
    roundcaprate (1/2) (1/10) = (1, 0) ∧ roundcaprateSpec (1/2) (1/10) = (0, 0) ∧
      roundcaprate (1/2) (1/10) ≠ roundcaprateSpec (1/2) (1/10) := by
  have hs : sigdigits (1/2) = 0 := by norm_num [sigdigits]; decide
  have hf : floorLog10 (1/2) = -1 := by norm_num [floorLog10]; decide
  have h1 : roundcaprate (1/2) (1/10) = (1, 0) := by
    norm_num [roundcaprate, hs, pyRound, pyRoundAway, pyTrunc]
  have h2 : roundcaprateSpec (1/2) (1/10) = (0, 0) := by
    norm_num [roundcaprateSpec, hf, pyRound, pyRoundAway, pyTrunc]
  refine ⟨h1, h2, ?_⟩
  rw [h1, h2]
  intro hcontra
  have := congrArg Prod.fst hcontra
  norm_num at this

/-- Claim C4 as amended: for every pair with rate > 0 the display rounding
uses `sigDigits = int(min(0, log10 rate))` — truncation toward zero, not
floor — so `sigDigits = 0` for every rate ≥ 1, and for rate < 1 it is the
unique s ≤ 0 with `10^(s-1) < rate ≤ 10^s`; with that significance the two
branches round exactly as claimed (rate < 10 decimal-rounded with error at
one more digit, otherwise both integer-rounded), nonpositive rates yield
`[0, 0]` via the caught log-domain error, and the two concrete examples of
the claim evaluate as stated. -/
theorem roundcaprate_truncated_significance (x y : ℚ) (hx : 0 < x) :
    roundcaprate x y =
        (if x < 10 then (pyRound x (sigdigits x), pyRound y (sigdigits x - 1))
          else ((pyTrunc (pyRound x (sigdigits x)) : ℚ), (pyTrunc (pyRound y (sigdigits x)) : ℚ))) ∧
      sigdigits x ≤ 0 ∧
      (1 ≤ x → sigdigits x = 0) ∧
      (x < 1 → (10:ℚ) ^ (sigdigits x - 1) < x ∧ x ≤ (10:ℚ) ^ sigdigits x) ∧
      roundcaprate (12345/1000) (1234/1000) = (12, 1) ∧
      roundcaprate (3456/1000) (789/1000) = (3, 0) := by
  refine ⟨?_, ?_, ?_, ?_, ?_, ?_⟩
  · unfold roundcaprate
    rw [if_neg (not_le.mpr hx)]
  · unfold sigdigits
    split
    · exact le_refl 0
    · simp
  · intro h1
    unfold sigdigits
    rw [if_pos h1]
  · intro hlt
    exact sigdigits_bounds x hx hlt
  · norm_num [roundcaprate, sigdigits, pyRound, pyRoundAway, pyTrunc]
  · norm_num [roundcaprate, sigdigits, pyRound, pyRoundAway, pyTrunc]

/-- Witness for C4 at rate 1/20 (error 3): truncated significance is -1. -/
theorem roundcaprate_truncated_significance_witness :
    (0:ℚ) < 1/20 ∧
      (roundcaprate (1/20) 3 =
          (if (1:ℚ)/20 < 10 then
            (pyRound (1/20) (sigdigits (1/20)), pyRound 3 (sigdigits (1/20) - 1))
          else ((pyTrunc (pyRound (1/20) (sigdigits (1/20))) : ℚ),
            (pyTrunc (pyRound 3 (sigdigits (1/20))) : ℚ))) ∧
        sigdigits (1/20) ≤ 0 ∧
        ((1:ℚ) ≤ 1/20 → sigdigits (1/20) = 0) ∧
        ((1:ℚ)/20 < 1 → (10:ℚ) ^ (sigdigits (1/20) - 1) < 1/20 ∧
          (1:ℚ)/20 ≤ (10:ℚ) ^ sigdigits (1/20)) ∧
        roundcaprate (12345/1000) (1234/1000) = (12, 1) ∧
        roundcaprate (3456/1000) (789/1000) = (3, 0)) :=
  ⟨by norm_num, roundcaprate_truncated_significance (1/20) 3 (by norm_num)⟩

/-- Claim C7: while a query round trip is outstanding (the running flag is
set), a timer tick is a no-op — the state is unchanged, so nothing is
issued or queued — and consequently along every event trace from the
post-`openDBFile` state at most one query round trip is outstanding at
any time. -/
theorem tick_noop_while_running_and_single_outstanding (fit : List ℚ → Option ℚ)
    (sqrtN : ℚ) (s : StatsState) (evs : List Ev) (h : s.queryRunning = true) :
    step fit sqrtN s .tick = s ∧
      (evs.foldl (step fit sqrtN) openDBState).outstanding ≤ 1 := by
  constructor
  · unfold step onAppIdle
    rw [if_pos h]
  · exact (inv_foldl fit sqrtN evs openDBState inv_openDB).1

/-- Witness for C7: the initial post-open state has the flag set; one
tick leaves it unchanged, and the trace bound holds. -/
theorem tick_noop_witness :
    openDBState.queryRunning = true ∧
      (step (fun _ => none) 0 openDBState .tick = openDBState ∧
        ([Ev.tick].foldl (step (fun _ => none) 0) openDBState).outstanding ≤ 1) :=
  ⟨rfl, tick_noop_while_running_and_single_outstanding (fun _ => none) 0 openDBState
    [Ev.tick] rfl⟩

end Stats

namespace Stats

/-- Counterexample for C3: a snapshot with `totalCount = 0` (no rows at
all, as the snapshot invariant forces when the total is zero) does not
reach the error-rate division: `np.hstack` raises on the empty row list
first, the bare `except: raise` re-raises it, and the exception escapes
`OnDataReady` — no caught division fault, state untouched. -/
theorem errorrate_zero_total_propagates :
    onDataReady (fun _ => none) 0 [] [] "" initState = .raised initState := by
  simp [onDataReady, hstack]

/-- Claim C3 as amended: for every snapshot with at least one matched row
and `totalCount > 0` (and a capture-rate computation that does not itself
raise), the displayed error-rate percentage is exactly
`round(100 * (1 - matchedCount / totalCount), 2)`; a snapshot with an
empty matched-row list — in particular any snapshot with
`totalCount = 0` — aborts in the row-concatenation step before the
division, the exception propagates, and every displayed value is
retained unchanged. -/
theorem errorrate_formula_and_empty_matched_propagation
    (fit : List ℚ → Option ℚ) (sqrtN : ℚ) (res1 : List (List ℚ)) (res2 : List String)
    (s : StatsState) (h1 : res1 ≠ []) (h2 : res2 ≠ [])
    (h3 : caprate res1.flatten fit sqrtN ≠ none) :
    ((onDataReady fit sqrtN res1 res2 "" s).state).errorrateLabel =
        pyRound (100 * (1 - (res1.flatten.length : ℚ) / (res2.length : ℚ))) 2 ∧
      ∀ t : StatsState, onDataReady fit sqrtN [] res2 "" t = .raised t := by
  constructor
  · have hh : hstack res1 = some res1.flatten := by
      cases res1 with
      | nil => exact absurd rfl h1
      | cons a t => rfl
    have ht : ¬ res2.length = 0 := by
      cases res2 with
      | nil => exact absurd rfl h2
      | cons b t2 => simp
    unfold onDataReady
    rw [if_pos rfl, hh]
    cases hc : caprate res1.flatten fit sqrtN with
    | none => exact absurd hc h3
    | some c =>
      simp only [hc]
      rw [if_neg ht]
      cases hf : formatelapsedtime res1.flatten with
      | none => simp [hf, PyResult.state]
      | some el => simp [hf, PyResult.state]
  · intro t
    simp [onDataReady, hstack]

/-- Witness for C3: one matched row out of two total gives 50 percent. -/
theorem errorrate_formula_witness :
    ([[5]] : List (List ℚ)) ≠ [] ∧ (["normal", "err"] : List String) ≠ [] ∧
      caprate ([[5]] : List (List ℚ)).flatten (fun _ => none) 0 ≠ none ∧
      (((onDataReady (fun _ => none) 0 [[5]] ["normal", "err"] "" initState).state).errorrateLabel =
          pyRound (100 * (1 - (([[5]] : List (List ℚ)).flatten.length : ℚ) /
            ((["normal", "err"] : List String).length : ℚ))) 2 ∧
        ∀ t : StatsState, onDataReady (fun _ => none) 0 [] ["normal", "err"] "" t = .raised t) :=
  ⟨by simp, by simp, by simp [caprate],
    errorrate_formula_and_empty_matched_propagation (fun _ => none) 0 [[5]]
      ["normal", "err"] initState (by simp) (by simp) (by simp [caprate])⟩

/-- Claim C2 (code bug): after a query round trip completes with a
populated error indicator, the previously published statistics are indeed
retained unchanged and no exception escapes, but `OnDataReady` never
clears `queryRunning` on that path, so every subsequent timer tick is a
no-op and no new query is ever issued — the refresh loop stalls instead
of retrying. Evaluated on the concrete trace: successful round trip, one
tick (issuing a query), a round trip returning the error indicator
"database is locked", then a tick that changes nothing although no query
is outstanding. -/
theorem refresh_stalls_after_query_error :
    [Ev.ready [[1000]] ["normal"] "", Ev.tick, Ev.ready [] [] "database is locked",
        Ev.tick].foldl (step (fun _ => none) 0) openDBState =
      { queryData := [1000]
        totalEvents := 1
        neventsLabel := 1
        errorrateLabel := 0
        caprateLabel := (0, 0)
        elapsedtimeLabel := some (.secs 1)
        queryRunning := true
        outstanding := 0 } ∧
      [Ev.ready [[1000]] ["normal"] "", Ev.tick,
          Ev.ready [] [] "database is locked"].foldl (step (fun _ => none) 0) openDBState =
        { queryData := [1000]
          totalEvents := 1
          neventsLabel := 1
          errorrateLabel := 0
          caprateLabel := (0, 0)
          elapsedtimeLabel := some (.secs 1)
          queryRunning := true
          outstanding := 0 } ∧
      [Ev.ready [[1000]] ["normal"] ""].foldl (step (fun _ => none) 0) openDBState =
        { queryData := [1000]
          totalEvents := 1
          neventsLabel := 1
          errorrateLabel := 0
          caprateLabel := (0, 0)
          elapsedtimeLabel := some (.secs 1)
          queryRunning := false
          outstanding := 0 } := by
  refine ⟨?_, ?_, ?_⟩ <;>
    (norm_num [List.foldl, step, openDBState, updatequery, initState, onDataReady,
        onAppIdle, hstack, caprate, formatelapsedtime, pyRound, pyRoundAway, pymod,
        PyResult.state, List.getLast?] <;>
      decide)

end Stats

namespace Store

/-- Counterexample for C6: `initDB` performs no length validation —
column-name and column-type lists of different lengths (2 versus 1) are
accepted and initialization proceeds into the backend hook. -/
theorem initDB_mismatched_lengths_succeeds :
    (initDB [("dbPath", PyVal.vstr "p"), ("colNames", PyVal.vlist ["a", "b"]),
        ("colNames_t", PyVal.vlist ["REAL"])] (freshStore 0)).isOk = true ∧
      (["a", "b"] : List String).length ≠ (["REAL"] : List String).length := by
  refine ⟨by decide, by decide⟩

/-- Claim C6 as amended: on a freshly constructed store object, `initDB`
returns normally exactly when all three required keys (`dbPath`,
`colNames`, `colNames_t`) appear among the passed keyword arguments, and
raises the missing-argument error exactly when one is absent; the lengths
of `colNames` and `colNames_t` are never compared, so mismatched lengths
do not cause a failure. -/
theorem initDB_ok_iff_required_keys_present (kwargs : List (String × PyVal)) (pid : ℕ) :
    (initDB kwargs (freshStore pid)).isOk = true ↔
      ("dbPath" ∈ kwargs.map Prod.fst ∧ "colNames" ∈ kwargs.map Prod.fst ∧
        "colNames_t" ∈ kwargs.map Prod.fst) := by
  have hfresh : ∀ key, hasAttr (freshStore pid) key = false := fun key => rfl
  have e1 := hasAttr_foldl kwargs (freshStore pid) "dbPath"
  have e2 := hasAttr_foldl kwargs (freshStore pid) "colNames"
  have e3 := hasAttr_foldl kwargs (freshStore pid) "colNames_t"
  rw [hfresh] at e1 e2 e3
  simp only [Bool.false_eq_true, or_false] at e1 e2 e3
  simp only [initDB]
  cases hb1 : hasAttr (kwargs.foldl setAttr (freshStore pid)) "dbPath" <;>
    cases hb2 : hasAttr (kwargs.foldl setAttr (freshStore pid)) "colNames" <;>
      cases hb3 : hasAttr (kwargs.foldl setAttr (freshStore pid)) "colNames_t" <;>
        simp_all [InitResult.isOk]

end Store
